import Mathlib

/-!
Verification of the playlie last.fm client library against its specification.

The development shallowly embeds the repository's Rust sources:
the JSON value model stands in for `serde_json::Value` (the tokenizer is an
external collaborator per the spec), each `#[derive(Deserialize)]` struct gets
an explicit decoder following serde's field-lookup semantics (unknown fields
ignored, missing required fields fail), and the client's response pipeline
(`parse_response`, `similar_tracks`, `build_uri`) becomes a pure function of
the HTTP outcome.  A possible panic (`endpoint.parse().unwrap()`) is embedded
as an `Option` result, `none` meaning the panic.
-/

/-- JSON numbers as serde_json represents them: a non-negative integer (u64),
a negative integer (i64), or a non-integral float.  The decoders in this
program reject every negative and every float uniformly, without inspecting
the value, so the float payload is not modelled. -/
inductive JNumber where
  | uint (n : Nat)
  | nint (n : Nat)
  | float
deriving DecidableEq, Repr

/-- JSON values (serde_json::Value). -/
inductive Json where
  | null
  | bool (b : Bool)
  | num (x : JNumber)
  | str (s : String)
  | arr (xs : List Json)
  | obj (fields : List (String × Json))

/-- First field with the given key in a JSON object, as serde's generated
struct visitor observes it. -/
def findField : List (String × Json) → String → Option Json
  | [], _ => none
  | (k, v) :: fs, key => if k = key then some v else findField fs key

/-- Decode failures, standing in for serde_json::Error.  The
invalidErrorCode case is the custom "invalid error code: n" message raised by
the ErrorCode visitor in src/lastfm/errors.rs. -/
inductive DecodeError where
  | invalidErrorCode (n : Nat)
  | invalidType (expected : String)
  | invalidValue (expected : String)
  | missingField (name : String)
deriving DecidableEq, Repr

/-- serde decode of a String field. -/
def decode_string : Json → Except DecodeError String
  | .str s => .ok s
  | _ => .error (.invalidType "string")

/-- A required struct field: missing fields are a decode error
(serde's missing_field). -/
def required (fs : List (String × Json)) (key : String) : Except DecodeError Json :=
  match findField fs key with
  | some v => .ok v
  | none => .error (.missingField key)

/-- serde decode of a Vec element-wise, left to right. -/
def decodeList {T : Type} (d : Json → Except DecodeError T) :
    List Json → Except DecodeError (List T)
  | [] => .ok []
  | x :: xs => (d x).bind fun v => (decodeList d xs).map fun vs => v :: vs

/-- serde decode of a Vec: a JSON array is required. -/
def decode_array {T : Type} (d : Json → Except DecodeError T) :
    Json → Except DecodeError (List T)
  | .arr xs => decodeList d xs
  | _ => .error (.invalidType "sequence")

/-- serde decode of a u8 field: only a non-negative integer that fits in
eight bits succeeds (src/lastfm/mod.rs, ProxyErrorResponse.error). -/
def decode_u8 : Json → Except DecodeError Nat
  | .num (.uint n) => if n ≤ 255 then .ok n else .error (.invalidValue "u8")
  | .num (.nint _) => .error (.invalidValue "u8")
  | .num .float => .error (.invalidType "u8")
  | _ => .error (.invalidType "u8")

namespace lastfm.errors

/-- src/lastfm/errors.rs: the strict ErrorCode enumeration (no catch-all). -/
inductive ErrorCode where
  | InvalidService
  | InvalidMethod
  | AuthenticationFailed
  | InvalidFormat
  | InvalidParameters
  | InvalidResource
  | OperationFailed
  | InvalidSessionKey
  | InvalidAPIKey
  | ServiceOffline
  | SubscribersOnly
  | InvalidMethodSignature
  | UnauthorizedToken
  | StreamingNotAvailable
  | ServiceTemporarilyUnavailable
  | RequiresLogin
  | TrialExpired
  | NotEnoughContent
  | NotEnoughMembers
  | NotEnoughFans
  | NotEnoughNeighbours
  | NoPeakRadio
  | RadioNotFound
  | APIKeySuspended
  | Deprecated
  | RateLimitExceeded
deriving DecidableEq, Repr

/-- src/lastfm/errors.rs: InvalidErrorCode(u64), the TryFrom error carrying
the offending wire integer. -/
structure InvalidErrorCode where
  n : Nat
deriving DecidableEq, Repr

/-- src/lastfm/errors.rs: `impl TryFrom<u64> for ErrorCode`, the strict
wire-integer to variant mapping. -/
def try_from (u : Nat) : Except InvalidErrorCode ErrorCode :=
  if u = 2 then .ok .InvalidService
  else if u = 3 then .ok .InvalidMethod
  else if u = 4 then .ok .AuthenticationFailed
  else if u = 5 then .ok .InvalidFormat
  else if u = 6 then .ok .InvalidParameters
  else if u = 7 then .ok .InvalidResource
  else if u = 8 then .ok .OperationFailed
  else if u = 9 then .ok .InvalidSessionKey
  else if u = 10 then .ok .InvalidAPIKey
  else if u = 11 then .ok .ServiceOffline
  else if u = 12 then .ok .SubscribersOnly
  else if u = 13 then .ok .InvalidMethodSignature
  else if u = 14 then .ok .UnauthorizedToken
  else if u = 15 then .ok .StreamingNotAvailable
  else if u = 16 then .ok .ServiceTemporarilyUnavailable
  else if u = 17 then .ok .RequiresLogin
  else if u = 18 then .ok .TrialExpired
  else if u = 20 then .ok .NotEnoughContent
  else if u = 21 then .ok .NotEnoughMembers
  else if u = 22 then .ok .NotEnoughFans
  else if u = 23 then .ok .NotEnoughNeighbours
  else if u = 24 then .ok .NoPeakRadio
  else if u = 25 then .ok .RadioNotFound
  else if u = 26 then .ok .APIKeySuspended
  else if u = 27 then .ok .Deprecated
  else if u = 29 then .ok .RateLimitExceeded
  else .error ⟨u⟩

/-- src/lastfm/errors.rs: the manual Deserialize impl for ErrorCode.
serde_json dispatches a JSON number to visit_u64 (non-negative),
visit_i64 (negative) or visit_f64 (float); the visitor implements only the
unsigned methods, so negative numbers, floats and non-numbers hit the
default visitor methods and fail with a type error, while unsigned integers
go through try_from, whose failure becomes the custom
"invalid error code: n" message. -/
def ErrorCode.deserialize : Json → Except DecodeError ErrorCode
  | .num (.uint n) =>
      match try_from n with
      | .ok c => .ok c
      | .error e => .error (.invalidErrorCode e.n)
  | _ => .error (.invalidType "integer")

/-- src/lastfm/errors.rs: the error envelope with a typed code. -/
structure ErrorResponse where
  error : ErrorCode
  message : String
deriving DecidableEq, Repr

/-- Decoder derived for errors.rs ErrorResponse: fields "error" (ErrorCode)
and "message" (String). -/
def ErrorResponse.deserialize : Json → Except DecodeError ErrorResponse
  | .obj fs =>
      (required fs "error").bind fun ev =>
      (ErrorCode.deserialize ev).bind fun code =>
      (required fs "message").bind fun mv =>
      (decode_string mv).map fun msg => ⟨code, msg⟩
  | _ => .error (.invalidType "map")

end lastfm.errors

namespace lastfm

/-- src/lastfm/mod.rs: the ErrorCode enumeration used by the live client
module, which includes the catch-all Generic variant (discriminant 1). -/
inductive ErrorCode where
  | Generic
  | InvalidService
  | InvalidMethod
  | AuthenticationFailed
  | InvalidFormat
  | InvalidParameters
  | InvalidResource
  | OperationFailed
  | InvalidSessionKey
  | InvalidAPIKey
  | ServiceOffline
  | SubscribersOnly
  | InvalidMethodSignature
  | UnauthorizedToken
  | StreamingNotAvailable
  | ServiceTemporarilyUnavailable
  | RequiresLogin
  | TrialExpired
  | NotEnoughContent
  | NotEnoughMembers
  | NotEnoughFans
  | NotEnoughNeighbours
  | NoPeakRadio
  | RadioNotFound
  | APIKeySuspended
  | Deprecated
  | RateLimitExceeded
deriving DecidableEq, Repr

/-- src/lastfm/mod.rs: the error envelope with a typed code. -/
structure ErrorResponse where
  error : ErrorCode
  message : String
deriving DecidableEq, Repr

/-- src/lastfm/mod.rs: ProxyErrorResponse, the envelope with the code kept
as a plain u8. -/
structure ProxyErrorResponse where
  error : Nat
  message : String
deriving DecidableEq, Repr

/-- Decoder derived for ProxyErrorResponse: fields "error" (u8) and
"message" (String). -/
def ProxyErrorResponse.deserialize : Json → Except DecodeError ProxyErrorResponse
  | .obj fs =>
      (required fs "error").bind fun ev =>
      (decode_u8 ev).bind fun code =>
      (required fs "message").bind fun mv =>
      (decode_string mv).map fun msg => ⟨code, msg⟩
  | _ => .error (.invalidType "map")

/-- src/lastfm/mod.rs: the match inside `impl From<ProxyErrorResponse> for
ErrorResponse`, mapping any integer outside the enumerated set to Generic. -/
def code_from_proxy (u : Nat) : ErrorCode :=
  if u = 2 then .InvalidService
  else if u = 3 then .InvalidMethod
  else if u = 4 then .AuthenticationFailed
  else if u = 5 then .InvalidFormat
  else if u = 6 then .InvalidParameters
  else if u = 7 then .InvalidResource
  else if u = 8 then .OperationFailed
  else if u = 9 then .InvalidSessionKey
  else if u = 10 then .InvalidAPIKey
  else if u = 11 then .ServiceOffline
  else if u = 12 then .SubscribersOnly
  else if u = 13 then .InvalidMethodSignature
  else if u = 14 then .UnauthorizedToken
  else if u = 15 then .StreamingNotAvailable
  else if u = 16 then .ServiceTemporarilyUnavailable
  else if u = 17 then .RequiresLogin
  else if u = 18 then .TrialExpired
  else if u = 20 then .NotEnoughContent
  else if u = 21 then .NotEnoughMembers
  else if u = 22 then .NotEnoughFans
  else if u = 23 then .NotEnoughNeighbours
  else if u = 24 then .NoPeakRadio
  else if u = 25 then .RadioNotFound
  else if u = 26 then .APIKeySuspended
  else if u = 27 then .Deprecated
  else if u = 29 then .RateLimitExceeded
  else .Generic

/-- src/lastfm/mod.rs: `impl From<ProxyErrorResponse> for ErrorResponse`. -/
def ErrorResponse.from_proxy (p : ProxyErrorResponse) : ErrorResponse :=
  ⟨code_from_proxy p.error, p.message⟩

/-- src/lastfm/mod.rs: Artist. -/
structure Artist where
  name : String
deriving DecidableEq, Repr

/-- Decoder derived for Artist: field "name". -/
def Artist.deserialize : Json → Except DecodeError Artist
  | .obj fs =>
      (required fs "name").bind fun nv =>
      (decode_string nv).map fun n => ⟨n⟩
  | _ => .error (.invalidType "map")

/-- src/lastfm/mod.rs: SimilarTrack. -/
structure SimilarTrack where
  name : String
  artist : Artist
deriving DecidableEq, Repr

/-- Decoder derived for SimilarTrack: fields "name" and "artist". -/
def SimilarTrack.deserialize : Json → Except DecodeError SimilarTrack
  | .obj fs =>
      (required fs "name").bind fun nv =>
      (decode_string nv).bind fun n =>
      (required fs "artist").bind fun av =>
      (Artist.deserialize av).map fun a => ⟨n, a⟩
  | _ => .error (.invalidType "map")

/-- src/lastfm/mod.rs: InnerSimilarTracks, with the wire rename
track → tracks. -/
structure InnerSimilarTracks where
  tracks : List SimilarTrack
deriving DecidableEq, Repr

/-- Decoder derived for InnerSimilarTracks: wire field "track". -/
def InnerSimilarTracks.deserialize : Json → Except DecodeError InnerSimilarTracks
  | .obj fs =>
      (required fs "track").bind fun tv =>
      (decode_array SimilarTrack.deserialize tv).map fun ts => ⟨ts⟩
  | _ => .error (.invalidType "map")

/-- src/lastfm/mod.rs: SimilarTracks, with the wire rename
similartracks → similar_tracks. -/
structure SimilarTracks where
  similar_tracks : InnerSimilarTracks
deriving DecidableEq, Repr

/-- Decoder derived for SimilarTracks: wire field "similartracks". -/
def SimilarTracks.deserialize : Json → Except DecodeError SimilarTracks
  | .obj fs =>
      (required fs "similartracks").bind fun sv =>
      (InnerSimilarTracks.deserialize sv).map fun i => ⟨i⟩
  | _ => .error (.invalidType "map")

/-- Transport failures (hyper::Error), opaque to the library. -/
structure HttpError where
  message : String
deriving DecidableEq, Repr

/-- src/lastfm/mod.rs: the three-variant Error sum. -/
inductive Error where
  | ParsingError (e : DecodeError)
  | HTTPError (e : HttpError)
  | APIError (r : ErrorResponse)
deriving DecidableEq, Repr

/-- An HTTP response as the library observes it: status code and a JSON body
(the tokenizer is external). -/
structure Response where
  status : Nat
  body : Json

/-- hyper StatusCode::is_success: 200 ≤ status < 300. -/
def is_success (status : Nat) : Bool :=
  200 ≤ status && status < 300

/-- src/lastfm/mod.rs: parse_response.  2xx decodes the body as the success
schema; any other status decodes the body as ProxyErrorResponse and wraps it
as an APIError; either decode failure is a ParsingError. -/
def parse_response {T : Type} (decode : Json → Except DecodeError T)
    (res : Response) : Except Error T :=
  if is_success res.status then
    match decode res.body with
    | .ok v => .ok v
    | .error e => .error (.ParsingError e)
  else
    match ProxyErrorResponse.deserialize res.body with
    | .ok r => .error (.APIError (ErrorResponse.from_proxy r))
    | .error e => .error (.ParsingError e)

/-- src/lastfm/mod.rs: Client::similar_tracks, from the HTTP outcome on:
a transport failure maps to HTTPError, a response goes through
parse_response with the SimilarTracks schema, and the inner track list is
extracted from the envelope. -/
def similar_tracks (transport : Except HttpError Response) :
    Except Error (List SimilarTrack) :=
  match transport with
  | .error e => .error (.HTTPError e)
  | .ok res =>
      match parse_response SimilarTracks.deserialize res with
      | .ok s => .ok s.similar_tracks.tracks
      | .error e => .error e

/-- src/lastfm/mod.rs: BASE_URL. -/
def BASE_URL : String := "http://ws.audioscrobbler.com/2.0"

/-- src/lastfm/mod.rs: the endpoint string formatted inside
Client::build_uri. -/
def build_endpoint (api_key method params : String) : String :=
  BASE_URL ++ "?method=" ++ method ++ "&api_key=" ++ api_key
    ++ "&format=json&" ++ params

/-- src/lastfm/mod.rs: the params string formatted inside
Client::similar_tracks. -/
def similar_tracks_params (artist track : String) : String :=
  "artist=" ++ artist ++ "&track=" ++ track

/-- src/lastfm/mod.rs: Client::build_uri.  The external URI check
(`endpoint.parse()`) is a parameter; `.unwrap()` on its failure is the one
panic, embedded as none. -/
def build_uri (uri_parse : String → Option String)
    (api_key method params : String) : Option String :=
  uri_parse (build_endpoint api_key method params)

/-- The whole similar_tracks call including URI construction: none embeds
the panic of `endpoint.parse().unwrap()`; otherwise the request runs and the
outcome is classified by similar_tracks. -/
def similar_tracks_run (uri_parse : String → Option String)
    (api_key artist track : String)
    (transport : Except HttpError Response) :
    Option (Except Error (List SimilarTrack)) :=
  match build_uri uri_parse api_key "track.getsimilar"
      (similar_tracks_params artist track) with
  | none => none
  | some _ => some (similar_tracks transport)

end lastfm

namespace playlie

/-- Modelled from the spec: the `playlie` library crate used by
src/bin/playlie.rs (its lib.rs and reqwest-based lastfm module are not under
src).  PlaylistItem has a name and an ordered sequence of credited artists,
per the spec's data model and the playlist JSON schema. -/
structure PlaylistItem where
  name : String
  artists : List lastfm.Artist
deriving DecidableEq, Repr

/-- Modelled from the spec: decoder for PlaylistItem, wire fields "name" and
"artists"; unknown fields ignored as for every schema in the spec. -/
def PlaylistItem.deserialize : Json → Except DecodeError PlaylistItem
  | .obj fs =>
      (required fs "name").bind fun nv =>
      (decode_string nv).bind fun n =>
      (required fs "artists").bind fun av =>
      (decode_array lastfm.Artist.deserialize av).map fun arts => ⟨n, arts⟩
  | _ => .error (.invalidType "map")

/-- Modelled from the spec: Playlist, an ordered sequence of playlist items
under the wire field "playlist". -/
structure Playlist where
  playlist : List PlaylistItem
deriving DecidableEq, Repr

/-- Modelled from the spec: decoder for Playlist, wire field "playlist". -/
def Playlist.deserialize : Json → Except DecodeError Playlist
  | .obj fs =>
      (required fs "playlist").bind fun pv =>
      (decode_array PlaylistItem.deserialize pv).map fun ps => ⟨ps⟩
  | _ => .error (.invalidType "map")

/-- Modelled from the spec: the URL built by user_recommended,
the recommendations endpoint on the main website. -/
def user_recommended_url (user : String) : String :=
  "https://last.fm/player/station/user/" ++ user ++ "/recommended"

/-- Modelled from the spec: Client::user_recommended issues a GET to
user_recommended_url and classifies the outcome under the same status/decode
policy as similar_tracks (lastfm.parse_response with the Playlist schema;
transport failure maps to HTTPError). -/
def user_recommended (user : String)
    (transport : Except lastfm.HttpError lastfm.Response) :
    Except lastfm.Error Playlist :=
  match user, transport with
  | _, .error e => .error (.HTTPError e)
  | _, .ok res => lastfm.parse_response Playlist.deserialize res

end playlie

/-- Observable exit behaviour of a driver binary: process exit code and
whether an error description was printed. -/
structure DriverExit where
  exit_code : Nat
  printed_error : Bool
deriving DecidableEq, Repr

/-- src/bin/playlie.rs: main returns Result, so (by Rust's Termination) an
Ok run prints the playlist lines and exits 0, while an Err run prints the
error's Debug description and exits 1. -/
def playlie_main (r : Except lastfm.Error playlie.Playlist) : DriverExit :=
  match r with
  | .ok _ => ⟨0, false⟩
  | .error _ => ⟨1, true⟩

/-- src/main.rs: main runs the future under rt::run, printing the response
on success and the error's Debug description on failure, then returns unit,
so the process exits 0 in both cases. -/
def main_rs (r : Except lastfm.Error (List lastfm.SimilarTrack)) : DriverExit :=
  match r with
  | .ok _ => ⟨0, false⟩
  | .error _ => ⟨0, true⟩

/-- Looking a key up in an object is unchanged by splicing in fields whose
keys all differ from it. -/
theorem findField_append_extras (fs₁ extras fs₂ : List (String × Json))
    (key : String) (h : ∀ p ∈ extras, p.1 ≠ key) :
    findField (fs₁ ++ extras ++ fs₂) key = findField (fs₁ ++ fs₂) key := by
  rw [List.append_assoc]
  induction fs₁ with
  | nil =>
      simp only [List.nil_append]
      induction extras with
      | nil => rfl
      | cons p ps ih =>
          obtain ⟨k, v⟩ := p
          have hk : k ≠ key := h (k, v) (List.mem_cons_self _ _)
          simp only [List.cons_append, findField, if_neg hk]
          exact ih fun q hq => h q (List.mem_cons_of_mem _ hq)
  | cons p fs ih =>
      obtain ⟨k, v⟩ := p
      simp only [List.cons_append, findField]
      by_cases hk : k = key
      · simp only [if_pos hk]
      · simp only [if_neg hk]
        exact ih

/-- A required field is unchanged by splicing in fields with other keys. -/
theorem required_append_extras (fs₁ extras fs₂ : List (String × Json))
    (key : String) (h : ∀ p ∈ extras, p.1 ≠ key) :
    required (fs₁ ++ extras ++ fs₂) key = required (fs₁ ++ fs₂) key := by
  unfold required
  rw [findField_append_extras fs₁ extras fs₂ key h]

/-- Element-wise decoding preserves length. -/
theorem decodeList_length {T : Type} (d : Json → Except DecodeError T) :
    ∀ (xs : List Json) (ys : List T),
      decodeList d xs = .ok ys → ys.length = xs.length := by
  intro xs
  induction xs with
  | nil =>
      intro ys h
      cases h
      rfl
  | cons x xs ih =>
      intro ys h
      simp only [decodeList] at h
      cases hd : d x with
      | error e => rw [hd] at h; simp [Except.bind] at h
      | ok v =>
          rw [hd] at h
          cases hrest : decodeList d xs with
          | error e => rw [hrest] at h; simp [Except.bind, Except.map] at h
          | ok vs =>
              rw [hrest] at h
              simp only [Except.bind, Except.map] at h
              cases h
              simp [ih vs hrest]

/-- Claim C1: the spec says every wire integer outside the enumerated set
fails envelope decoding with an "invalid error code" parse error and never
yields an ErrorCode value.  The strict decoder in src/lastfm/errors.rs does
exactly that (conjuncts two and three), but the live envelope path in
src/lastfm/mod.rs (parse_response with ProxyErrorResponse and
From<ProxyErrorResponse>) maps out-of-set code 255 to ErrorCode.Generic and
reports an APIError, not a parsing failure (conjunct one): the code
contradicts the claim at this input. -/
theorem c1_unknown_code_yields_generic :
    lastfm.similar_tracks (.ok ⟨403,
        .obj [("error", .num (.uint 255)), ("message", .str "?")]⟩)
      = .error (.APIError ⟨.Generic, "?"⟩)
  ∧ lastfm.errors.try_from 255 = .error ⟨255⟩
  ∧ lastfm.errors.ErrorCode.deserialize (.num (.uint 255))
      = .error (.invalidErrorCode 255) :=
  ⟨rfl, rfl, rfl⟩

/-- Claim C2: with a 2xx status, a body on which the success schema fails to
decode (for instance the API error envelope) produces a ParsingError, never
an APIError; with a non-2xx status, a body on which the error envelope fails
to decode (for instance a success-shaped body) produces a ParsingError,
never a success. -/
theorem c2_status_body_pairing (res : lastfm.Response) :
    (∀ e r, lastfm.is_success res.status = true →
        lastfm.SimilarTracks.deserialize res.body = .error e →
        lastfm.ProxyErrorResponse.deserialize res.body = .ok r →
        lastfm.similar_tracks (.ok res) = .error (.ParsingError e))
  ∧ (∀ v e, lastfm.is_success res.status = false →
        lastfm.SimilarTracks.deserialize res.body = .ok v →
        lastfm.ProxyErrorResponse.deserialize res.body = .error e →
        lastfm.similar_tracks (.ok res) = .error (.ParsingError e)) := by
  constructor
  · intro e r hs hd _
    simp [lastfm.similar_tracks, lastfm.parse_response, hs, hd]
  · intro v e hs _ hp
    simp [lastfm.similar_tracks, lastfm.parse_response, hs, hp]

/-- Witness for C2: a 200 response carrying the error envelope parses as a
ParsingError (missing "similartracks"), and a 403 response carrying a
success-shaped body parses as a ParsingError (missing "error"). -/
theorem c2_witness :
    lastfm.similar_tracks (.ok ⟨200,
        .obj [("error", .num (.uint 10)), ("message", .str "Invalid API Key")]⟩)
      = .error (.ParsingError (.missingField "similartracks"))
  ∧ lastfm.similar_tracks (.ok ⟨403,
        .obj [("similartracks", .obj [("track", .arr [])])]⟩)
      = .error (.ParsingError (.missingField "error")) :=
  ⟨(c2_status_body_pairing ⟨200,
        .obj [("error", .num (.uint 10)), ("message", .str "Invalid API Key")]⟩).1
      (.missingField "similartracks") ⟨10, "Invalid API Key"⟩ rfl rfl rfl,
   (c2_status_body_pairing ⟨403,
        .obj [("similartracks", .obj [("track", .arr [])])]⟩).2
      ⟨⟨[]⟩⟩ (.missingField "error") rfl rfl rfl⟩

/-- Claim C3: every integer in the enumerated set decodes to the ErrorCode
variant tagged with that wire integer, both through the strict
TryFrom<u64> in src/lastfm/errors.rs and through the envelope conversion
match in src/lastfm/mod.rs. -/
theorem c3_error_code_mapping :
    lastfm.errors.try_from 2 = .ok .InvalidService
  ∧ lastfm.errors.try_from 3 = .ok .InvalidMethod
  ∧ lastfm.errors.try_from 4 = .ok .AuthenticationFailed
  ∧ lastfm.errors.try_from 5 = .ok .InvalidFormat
  ∧ lastfm.errors.try_from 6 = .ok .InvalidParameters
  ∧ lastfm.errors.try_from 7 = .ok .InvalidResource
  ∧ lastfm.errors.try_from 8 = .ok .OperationFailed
  ∧ lastfm.errors.try_from 9 = .ok .InvalidSessionKey
  ∧ lastfm.errors.try_from 10 = .ok .InvalidAPIKey
  ∧ lastfm.errors.try_from 11 = .ok .ServiceOffline
  ∧ lastfm.errors.try_from 12 = .ok .SubscribersOnly
  ∧ lastfm.errors.try_from 13 = .ok .InvalidMethodSignature
  ∧ lastfm.errors.try_from 14 = .ok .UnauthorizedToken
  ∧ lastfm.errors.try_from 15 = .ok .StreamingNotAvailable
  ∧ lastfm.errors.try_from 16 = .ok .ServiceTemporarilyUnavailable
  ∧ lastfm.errors.try_from 17 = .ok .RequiresLogin
  ∧ lastfm.errors.try_from 18 = .ok .TrialExpired
  ∧ lastfm.errors.try_from 20 = .ok .NotEnoughContent
  ∧ lastfm.errors.try_from 21 = .ok .NotEnoughMembers
  ∧ lastfm.errors.try_from 22 = .ok .NotEnoughFans
  ∧ lastfm.errors.try_from 23 = .ok .NotEnoughNeighbours
  ∧ lastfm.errors.try_from 24 = .ok .NoPeakRadio
  ∧ lastfm.errors.try_from 25 = .ok .RadioNotFound
  ∧ lastfm.errors.try_from 26 = .ok .APIKeySuspended
  ∧ lastfm.errors.try_from 27 = .ok .Deprecated
  ∧ lastfm.errors.try_from 29 = .ok .RateLimitExceeded
  ∧ lastfm.code_from_proxy 2 = .InvalidService
  ∧ lastfm.code_from_proxy 3 = .InvalidMethod
  ∧ lastfm.code_from_proxy 4 = .AuthenticationFailed
  ∧ lastfm.code_from_proxy 5 = .InvalidFormat
  ∧ lastfm.code_from_proxy 6 = .InvalidParameters
  ∧ lastfm.code_from_proxy 7 = .InvalidResource
  ∧ lastfm.code_from_proxy 8 = .OperationFailed
  ∧ lastfm.code_from_proxy 9 = .InvalidSessionKey
  ∧ lastfm.code_from_proxy 10 = .InvalidAPIKey
  ∧ lastfm.code_from_proxy 11 = .ServiceOffline
  ∧ lastfm.code_from_proxy 12 = .SubscribersOnly
  ∧ lastfm.code_from_proxy 13 = .InvalidMethodSignature
  ∧ lastfm.code_from_proxy 14 = .UnauthorizedToken
  ∧ lastfm.code_from_proxy 15 = .StreamingNotAvailable
  ∧ lastfm.code_from_proxy 16 = .ServiceTemporarilyUnavailable
  ∧ lastfm.code_from_proxy 17 = .RequiresLogin
  ∧ lastfm.code_from_proxy 18 = .TrialExpired
  ∧ lastfm.code_from_proxy 20 = .NotEnoughContent
  ∧ lastfm.code_from_proxy 21 = .NotEnoughMembers
  ∧ lastfm.code_from_proxy 22 = .NotEnoughFans
  ∧ lastfm.code_from_proxy 23 = .NotEnoughNeighbours
  ∧ lastfm.code_from_proxy 24 = .NoPeakRadio
  ∧ lastfm.code_from_proxy 25 = .RadioNotFound
  ∧ lastfm.code_from_proxy 26 = .APIKeySuspended
  ∧ lastfm.code_from_proxy 27 = .Deprecated
  ∧ lastfm.code_from_proxy 29 = .RateLimitExceeded := by
  and_intros <;> rfl

/-- Claim C4: user_recommended issues a GET to
https://last.fm/player/station/user/USER/recommended and returns a Playlist
decoded from the body, classifying failures under the same status/decode
policy as similar_tracks: transport failure gives HTTPError, a 2xx body
decoding as a Playlist is returned, a non-2xx body decoding as the error
envelope gives APIError, and a 2xx body on which the Playlist schema fails
gives ParsingError. -/
theorem c4_user_recommended (user : String) (res : lastfm.Response)
    (e : lastfm.HttpError) :
    playlie.user_recommended_url user
        = "https://last.fm/player/station/user/" ++ user ++ "/recommended"
  ∧ playlie.user_recommended user (.error e) = .error (.HTTPError e)
  ∧ (∀ p, lastfm.is_success res.status = true →
        playlie.Playlist.deserialize res.body = .ok p →
        playlie.user_recommended user (.ok res) = .ok p)
  ∧ (∀ r, lastfm.is_success res.status = false →
        lastfm.ProxyErrorResponse.deserialize res.body = .ok r →
        playlie.user_recommended user (.ok res)
          = .error (.APIError (lastfm.ErrorResponse.from_proxy r)))
  ∧ (∀ e2, lastfm.is_success res.status = true →
        playlie.Playlist.deserialize res.body = .error e2 →
        playlie.user_recommended user (.ok res) = .error (.ParsingError e2)) := by
  refine ⟨rfl, rfl, ?_, ?_, ?_⟩
  · intro p hs hd
    simp [playlie.user_recommended, lastfm.parse_response, hs, hd]
  · intro r hs hp
    simp [playlie.user_recommended, lastfm.parse_response, hs, hp]
  · intro e2 hs hd
    simp [playlie.user_recommended, lastfm.parse_response, hs, hd]

/-- Witness for C4: the playlist happy path, one item named "Track A"
credited to artists X and Y in order. -/
theorem c4_witness :
    playlie.user_recommended "sebnow" (.ok ⟨200,
        .obj [("playlist", .arr [.obj [("name", .str "Track A"),
          ("artists", .arr [.obj [("name", .str "X")],
            .obj [("name", .str "Y")]])]])]⟩)
      = .ok ⟨[⟨"Track A", [⟨"X"⟩, ⟨"Y"⟩]⟩]⟩ :=
  (c4_user_recommended "sebnow" ⟨200,
      .obj [("playlist", .arr [.obj [("name", .str "Track A"),
        ("artists", .arr [.obj [("name", .str "X")],
          .obj [("name", .str "Y")]])]])]⟩ ⟨"unused"⟩).2.2.1
    ⟨[⟨"Track A", [⟨"X"⟩, ⟨"Y"⟩]⟩]⟩ rfl rfl

/-- Claim C5: a 2xx body of the shape with the similartracks/track envelope
around a track array yields exactly the decoded track sequence, preserving
length and order (decoding is element-wise and in order). -/
theorem c5_envelope_unwrapping (ts : List Json) (vs : List lastfm.SimilarTrack)
    (status : Nat) (hs : lastfm.is_success status = true)
    (h : decodeList lastfm.SimilarTrack.deserialize ts = .ok vs) :
    lastfm.similar_tracks (.ok ⟨status,
        .obj [("similartracks", .obj [("track", .arr ts)])]⟩) = .ok vs
  ∧ vs.length = ts.length := by
  constructor
  · have hdes : lastfm.SimilarTracks.deserialize
        (.obj [("similartracks", .obj [("track", .arr ts)])])
        = ((decodeList lastfm.SimilarTrack.deserialize ts).map fun l =>
            lastfm.InnerSimilarTracks.mk l).map fun i =>
              lastfm.SimilarTracks.mk i := rfl
    simp [lastfm.similar_tracks, lastfm.parse_response, hs, hdes, h, Except.map]
  · exact decodeList_length _ _ _ h

/-- Witness for C5: the similar-tracks happy path body (scenario S1),
including ignored playcount, mbid, match and artist mbid fields. -/
theorem c5_witness :
    lastfm.similar_tracks (.ok ⟨200,
        .obj [("similartracks", .obj [("track", .arr
          [.obj [("name", .str "Strong Enough"),
            ("playcount", .num (.uint 670120)),
            ("mbid", .str "39473218-db80-4db2-9623-690b79b94e04"),
            ("match", .num .float),
            ("artist", .obj [("name", .str "Cher"),
              ("mbid", .str "bfcc6d75-a6a5-4bc6-8282-47aec8531818")])]])])]⟩)
      = .ok [⟨"Strong Enough", ⟨"Cher"⟩⟩]
  ∧ ([⟨"Strong Enough", ⟨"Cher"⟩⟩] : List lastfm.SimilarTrack).length
      = [Json.obj [("name", .str "Strong Enough"),
          ("playcount", .num (.uint 670120)),
          ("mbid", .str "39473218-db80-4db2-9623-690b79b94e04"),
          ("match", .num .float),
          ("artist", .obj [("name", .str "Cher"),
            ("mbid", .str "bfcc6d75-a6a5-4bc6-8282-47aec8531818")])]].length :=
  c5_envelope_unwrapping
    [Json.obj [("name", .str "Strong Enough"),
      ("playcount", .num (.uint 670120)),
      ("mbid", .str "39473218-db80-4db2-9623-690b79b94e04"),
      ("match", .num .float),
      ("artist", .obj [("name", .str "Cher"),
        ("mbid", .str "bfcc6d75-a6a5-4bc6-8282-47aec8531818")])]]
    [⟨"Strong Enough", ⟨"Cher"⟩⟩] 200 rfl rfl

/-- Claim C6: the similar_tracks pipeline never panics on a transport
failure or an API-level error; the embedded run is none (the panic of
`endpoint.parse().unwrap()`) exactly when the external URI check rejects the
constructed endpoint, and on a transport failure the run, when it does not
hit that panic, returns the HTTPError value. -/
theorem c6_no_panic (up : String → Option String) (k a t : String)
    (tr : Except lastfm.HttpError lastfm.Response) :
    (∀ u, up (lastfm.build_endpoint k "track.getsimilar"
          (lastfm.similar_tracks_params a t)) = some u →
        lastfm.similar_tracks_run up k a t tr
          = some (lastfm.similar_tracks tr))
  ∧ (lastfm.similar_tracks_run up k a t tr = none →
        up (lastfm.build_endpoint k "track.getsimilar"
          (lastfm.similar_tracks_params a t)) = none)
  ∧ (∀ e, tr = .error e →
        lastfm.similar_tracks_run up k a t tr = none ∨
        lastfm.similar_tracks_run up k a t tr
          = some (.error (.HTTPError e))) := by
  refine ⟨?_, ?_, ?_⟩
  · intro u hu
    simp [lastfm.similar_tracks_run, lastfm.build_uri, hu]
  · intro hnone
    cases hu : up (lastfm.build_endpoint k "track.getsimilar"
        (lastfm.similar_tracks_params a t)) with
    | none => rfl
    | some u => simp [lastfm.similar_tracks_run, lastfm.build_uri, hu] at hnone
  · intro e he
    cases hu : up (lastfm.build_endpoint k "track.getsimilar"
        (lastfm.similar_tracks_params a t)) with
    | none =>
        left
        simp [lastfm.similar_tracks_run, lastfm.build_uri, hu]
    | some u =>
        right
        simp [lastfm.similar_tracks_run, lastfm.build_uri, hu, he,
          lastfm.similar_tracks]

/-- Witness for C6: with an accepting URI check, a connection failure is
reported as an HTTPError value rather than a panic. -/
theorem c6_witness :
    lastfm.similar_tracks_run some "key" "cher" "believe"
        (.error ⟨"connection refused"⟩)
      = some (lastfm.similar_tracks (.error ⟨"connection refused"⟩)) :=
  (c6_no_panic some "key" "cher" "believe" (.error ⟨"connection refused"⟩)).1
    (lastfm.build_endpoint "key" "track.getsimilar"
      (lastfm.similar_tracks_params "cher" "believe")) rfl

/-- Claim C7: the similar-tracks endpoint string equals the documented
literal template with the api key, artist and track substituted, the query
parameters appearing in exactly the documented order. -/
theorem c7_url_shape (key artist track : String) :
    lastfm.build_endpoint key "track.getsimilar"
        (lastfm.similar_tracks_params artist track)
      = "http://ws.audioscrobbler.com/2.0?method=track.getsimilar&api_key="
        ++ key ++ "&format=json&artist=" ++ artist ++ "&track=" ++ track := by
  simp only [lastfm.build_endpoint, lastfm.similar_tracks_params,
    lastfm.BASE_URL, String.append_assoc]
  rfl

/-- Claim C8: splicing additional fields whose keys are not among the
decoded fields into an object leaves decoding unchanged, for Artist (field
"name"), SimilarTrack (fields "name" and "artist") and the similar-tracks
envelope (field "similartracks"). -/
theorem c8_unknown_fields_ignored (fs₁ fs₂ extras : List (String × Json)) :
    ((∀ p ∈ extras, p.1 ≠ "name") →
      lastfm.Artist.deserialize (.obj (fs₁ ++ extras ++ fs₂))
        = lastfm.Artist.deserialize (.obj (fs₁ ++ fs₂)))
  ∧ ((∀ p ∈ extras, p.1 ≠ "name" ∧ p.1 ≠ "artist") →
      lastfm.SimilarTrack.deserialize (.obj (fs₁ ++ extras ++ fs₂))
        = lastfm.SimilarTrack.deserialize (.obj (fs₁ ++ fs₂)))
  ∧ ((∀ p ∈ extras, p.1 ≠ "similartracks") →
      lastfm.SimilarTracks.deserialize (.obj (fs₁ ++ extras ++ fs₂))
        = lastfm.SimilarTracks.deserialize (.obj (fs₁ ++ fs₂))) := by
  refine ⟨?_, ?_, ?_⟩
  · intro h
    simp only [lastfm.Artist.deserialize]
    rw [required_append_extras fs₁ extras fs₂ "name" h]
  · intro h
    simp only [lastfm.SimilarTrack.deserialize]
    rw [required_append_extras fs₁ extras fs₂ "name" fun p hp => (h p hp).1,
      required_append_extras fs₁ extras fs₂ "artist" fun p hp => (h p hp).2]
  · intro h
    simp only [lastfm.SimilarTracks.deserialize]
    rw [required_append_extras fs₁ extras fs₂ "similartracks" h]

/-- Witness for C8: adding playcount, mbid and match to a track object does
not change its decoding. -/
theorem c8_witness :
    lastfm.SimilarTrack.deserialize (.obj ([("name", .str "Strong Enough")]
        ++ [("playcount", .num (.uint 670120)), ("mbid", .str "x"),
          ("match", .num .float)]
        ++ [("artist", .obj [("name", .str "Cher")])]))
      = lastfm.SimilarTrack.deserialize (.obj ([("name", .str "Strong Enough")]
        ++ [("artist", .obj [("name", .str "Cher")])])) :=
  (c8_unknown_fields_ignored [("name", .str "Strong Enough")]
      [("artist", .obj [("name", .str "Cher")])]
      [("playcount", .num (.uint 670120)), ("mbid", .str "x"),
        ("match", .num .float)]).2.1
    (by decide)

/-- Claim C9 counterexample: the src/main.rs driver, on a transport failure,
prints the error description but exits with code 0, contradicting the
claim that every failure exits non-zero. -/
theorem c9_main_rs_exit_zero :
    main_rs (.error (.HTTPError ⟨"connection refused"⟩)) = ⟨0, true⟩ := rfl

/-- Claim C9 as amended: the playlie driver (src/bin/playlie.rs) exits 0 on
success and exits 1 printing an error description on every failure, while
the legacy src/main.rs driver prints the error description but exits 0 on
every outcome. -/
theorem c9_driver_exit_codes :
    (∀ p, playlie_main (.ok p) = ⟨0, false⟩)
  ∧ (∀ e, playlie_main (.error e) = ⟨1, true⟩)
  ∧ (∀ v, main_rs (.ok v) = ⟨0, false⟩)
  ∧ (∀ e, main_rs (.error e) = ⟨0, true⟩) :=
  ⟨fun _ => rfl, fun _ => rfl, fun _ => rfl, fun _ => rfl⟩

/-- Claim C10: the error-code decoders accept only unsigned integers: the
errors.rs ErrorCode visitor rejects negative, float and non-number JSON
values with a type error, the mod.rs proxy u8 field rejects negative, float
and non-number values and every integer above 255, and such a value inside
the envelope makes the whole envelope decode fail; no ErrorCode is ever
constructed from them and no panic occurs (all decoders are total). -/
theorem c10_unsigned_integers_only :
    (∀ m, lastfm.errors.ErrorCode.deserialize (.num (.nint m))
        = .error (.invalidType "integer"))
  ∧ lastfm.errors.ErrorCode.deserialize (.num .float)
      = .error (.invalidType "integer")
  ∧ (∀ s, lastfm.errors.ErrorCode.deserialize (.str s)
      = .error (.invalidType "integer"))
  ∧ (∀ m, decode_u8 (.num (.nint m)) = .error (.invalidValue "u8"))
  ∧ decode_u8 (.num .float) = .error (.invalidType "u8")
  ∧ (∀ s, decode_u8 (.str s) = .error (.invalidType "u8"))
  ∧ (∀ n, 255 < n → decode_u8 (.num (.uint n)) = .error (.invalidValue "u8"))
  ∧ (∀ m msg, lastfm.ProxyErrorResponse.deserialize
        (.obj [("error", .num (.nint m)), ("message", .str msg)])
        = .error (.invalidValue "u8"))
  ∧ (∀ m msg, lastfm.errors.ErrorResponse.deserialize
        (.obj [("error", .num (.nint m)), ("message", .str msg)])
        = .error (.invalidType "integer")) := by
  refine ⟨fun m => rfl, rfl, fun s => rfl, fun m => rfl, rfl, fun s => rfl,
    ?_, fun m msg => rfl, fun m msg => rfl⟩
  intro n h
  simp only [decode_u8, if_neg (Nat.not_le.mpr h)]

/-- Witness for C10: wire code 300, above the u8 range, is rejected by the
proxy field decoder. -/
theorem c10_witness :
    decode_u8 (.num (.uint 300)) = .error (.invalidValue "u8") :=
  c10_unsigned_integers_only.2.2.2.2.2.2.1 300 (by decide)
